import Mathlib

/-!
Verification of the qualys-aci scan orchestration core.

Shallow embedding of the Python sources under `function_app/`:
  * `image_parser.py`          — `ImageParser.parse`
  * `qualys_scanner_binary.py` — `QScannerBinary` (retrying executor, output
    normalizer, severity normalization)
  * `qualys_scanner_qscanner.py` — `QScanner` (CLI variant: command builder,
    severity normalization)
  * `qualys_scanner.py`        — `QualysScanner` (API-client variant:
    vulnerability parsing)
  * `storage_handler.py`       — `StorageHandler.is_recently_scanned`

Python strings are modelled as Lean `String` (operated on through their
underlying `List Char` so that everything reduces structurally); Python's
`str.split` / `str.rsplit` / substring tests are implemented below on
`List Char` with the same leftmost non-overlapping occurrence semantics.
External library calls (`json.loads`, `datetime.fromisoformat`, the table
query) are modelled as oracle parameters of the embedding functions.
-/

namespace QualysAci

/-! ## String / list utilities (Python `in`, `split`, `rsplit`, case folds) -/

/-- Find the first (leftmost) occurrence of `sep` in a character list.
Returns the part before the occurrence and the part after it, or `none` when
`sep` does not occur.  Mirrors the scanning done by Python's `str.split` /
`in` operator (non-overlapping, leftmost first). -/
def breakOnSub (sep : List Char) : List Char → Option (List Char × List Char)
  | [] => if sep = [] then some ([], []) else none
  | c :: cs =>
    if sep.isPrefixOf (c :: cs) then some ([], (c :: cs).drop sep.length)
    else
      match breakOnSub sep cs with
      | some (pre, post) => some (c :: pre, post)
      | none => none

/-- Python `sep in s` (substring containment) on character lists. -/
def containsSub (sep l : List Char) : Bool := (breakOnSub sep l).isSome

/-- Python `needle in hay` for strings (substring containment). -/
def strContains (needle hay : String) : Bool := containsSub needle.data hay.data

/-- Python `s.split(sep)` for a non-empty separator, fuelled to keep the
recursion structural.  Any `fuel ≥` number of occurrences `+ 1` gives the
exact Python behaviour; callers pass `l.length + 1`. -/
def splitOnSub (sep : List Char) : Nat → List Char → List (List Char)
  | 0, l => [l]
  | fuel + 1, l =>
    match breakOnSub sep l with
    | none => [l]
    | some (pre, post) => pre :: splitOnSub sep fuel post

/-- Join character lists with a single-character separator (used to model
Python's `str.rsplit(sep, 1)` and the slash-join of path parts). -/
def joinWith (c : Char) : List (List Char) → List Char
  | [] => []
  | [x] => x
  | x :: xs => x ++ c :: joinWith c xs

/-- Python `s.lower()`. -/
def lowerStr (s : String) : String := ⟨s.data.map Char.toLower⟩

/-- Python `s.upper()`. -/
def upperStr (s : String) : String := ⟨s.data.map Char.toUpper⟩

/-- Python truthiness of a string (`if s:`): true iff non-empty. -/
def truthyStr (s : String) : Bool := !s.data.isEmpty

/-- Python truthiness of an optional string (`None` and `''` are falsy). -/
def truthyOptStr : Option String → Bool
  | none => false
  | some s => truthyStr s

/-! ## Retrying scan executor (`qualys_scanner_binary.py`, `_run_qscanner`) -/

/-- `max_retries = 3` in `_run_qscanner` (qualys_scanner_binary.py line 246). -/
def max_retries : Nat := 3

/-- `base_delay = 2` in `_run_qscanner` (qualys_scanner_binary.py line 247). -/
def base_delay : Nat := 2

/-- Default of the `SCAN_TIMEOUT` environment variable
(`int(os.environ.get('SCAN_TIMEOUT', '1800'))`). -/
def scan_timeout_default : Nat := 1800

/-- Outcome of one `_execute_qscanner` attempt: either the tool's stdout, or
the message of the exception the attempt raised. -/
inductive AttemptResult where
  | success (out : String)
  | failure (msg : String)

/-- Retryable-error patterns from `_is_retryable_error`
(qualys_scanner_binary.py lines 270-281). -/
def retryable_patterns : List String :=
  ["connection", "timeout", "network", "temporary", "rate limit",
   "too many requests", "429", "502", "503", "504"]

/-- `_is_retryable_error`: lower-case the exception text and look for any of
the transient markers as a substring. -/
def is_retryable_error (msg : String) : Bool :=
  retryable_patterns.any (fun p => strContains p (lowerStr msg))

/-- Message of the `TimeoutError` raised by `_execute_qscanner` when the
subprocess call raises `subprocess.TimeoutExpired`
(qualys_scanner_binary.py line 381). -/
def timeout_error_message (t : Nat) : String :=
  "qscanner scan timed out after " ++ toString t ++ " seconds"

/-- Observable trace of one `_run_qscanner` call: the final result (output or
propagated exception message), how many attempts were made, and the sequence
of back-off sleeps performed between attempts. -/
structure RunTrace where
  result : Except String String
  attempts : Nat
  sleeps : List Nat

/-- The `for attempt in range(max_retries + 1)` loop of `_run_qscanner`,
with the attempt outcomes supplied by `f`.  The fuel equals the number of
remaining loop iterations; the fuel-0 case is the `raise Exception('qscanner
retry logic failed unexpectedly')` after the loop, which is unreachable with
the initial fuel `max_retries + 1`. -/
def run_qscanner_from (f : Nat → AttemptResult) : Nat → Nat → RunTrace
  | _, 0 => ⟨.error "qscanner retry logic failed unexpectedly", 0, []⟩
  | attempt, fuel + 1 =>
    match f attempt with
    | .success out => ⟨.ok out, 1, []⟩
    | .failure msg =>
      -- is_last_attempt = attempt == max_retries; non-retryable or last ⇒ re-raise
      if attempt == max_retries || !is_retryable_error msg then
        ⟨.error msg, 1, []⟩
      else
        let rest := run_qscanner_from f (attempt + 1) fuel
        ⟨rest.result, rest.attempts + 1, base_delay * 2 ^ attempt :: rest.sleeps⟩

/-- `_run_qscanner`: run the executor loop from attempt 0. -/
def run_qscanner (f : Nat → AttemptResult) : RunTrace :=
  run_qscanner_from f 0 (max_retries + 1)

theorem run_qscanner_from_attempts_le (f : Nat → AttemptResult) :
    ∀ fuel attempt, (run_qscanner_from f attempt fuel).attempts ≤ fuel := by
  intro fuel
  induction fuel with
  | zero => intro attempt; simp [run_qscanner_from]
  | succ n ih =>
    intro attempt
    simp only [run_qscanner_from]
    cases f attempt with
    | success out => simp
    | failure msg =>
      by_cases h : (attempt == max_retries || !is_retryable_error msg) = true
      · simp [h]
      · simp only [h]
        simp only [Bool.false_eq_true, if_false]
        have := ih (attempt + 1)
        simpa using Nat.succ_le_succ this

/-- C1: when every attempt of the external tool times out (raising the
`TimeoutError` of `_execute_qscanner` with the default 1800s budget), the
timeout message is classified as non-retryable by `_is_retryable_error`
(its text says "timed out", which matches none of the transient markers),
so `_run_qscanner` re-raises it after exactly one attempt, with no back-off
sleeps, regardless of the remaining retry budget. -/
theorem timeout_fatal_single_attempt :
    is_retryable_error (timeout_error_message scan_timeout_default) = false ∧
    ∀ f : Nat → AttemptResult,
      (∀ i, f i = .failure (timeout_error_message scan_timeout_default)) →
      run_qscanner f =
        ⟨.error (timeout_error_message scan_timeout_default), 1, []⟩ := by
  have hr : is_retryable_error (timeout_error_message scan_timeout_default) = false := by
    decide
  refine ⟨hr, ?_⟩
  intro f h
  simp [run_qscanner, run_qscanner_from, h 0, hr, max_retries]

/-- Witness for C1: the concrete always-times-out tool. -/
theorem timeout_fatal_single_attempt_witness :
    run_qscanner (fun _ => .failure (timeout_error_message scan_timeout_default)) =
      ⟨.error (timeout_error_message scan_timeout_default), 1, []⟩ :=
  timeout_fatal_single_attempt.2 _ (fun _ => rfl)

/-- C9: the executor's retry loop makes at most `max_retries + 1 = 4`
attempts; when the first `N ≤ 3` attempts fail with transient-classified
errors and attempt `N` succeeds, it returns that attempt's output after
sleeping `base_delay * 2^i` seconds (i.e. 2, 4, 8) before each retry; when
all four attempts fail with transient errors it propagates the last error
after sleeps [2, 4, 8]; and a non-transient first error propagates
immediately after one attempt. -/
theorem executor_retry_backoff :
    (∀ f, (run_qscanner f).attempts ≤ max_retries + 1) ∧
    (∀ f N out, N ≤ max_retries →
      (∀ i, i < N → ∃ m, f i = .failure m ∧ is_retryable_error m = true) →
      f N = .success out →
      run_qscanner f =
        ⟨.ok out, N + 1, (List.range N).map (fun i => base_delay * 2 ^ i)⟩) ∧
    (∀ f m₀ m₁ m₂ m₃,
      f 0 = .failure m₀ → f 1 = .failure m₁ → f 2 = .failure m₂ → f 3 = .failure m₃ →
      is_retryable_error m₀ = true → is_retryable_error m₁ = true →
      is_retryable_error m₂ = true →
      run_qscanner f = ⟨.error m₃, 4, [2, 4, 8]⟩) ∧
    (∀ f m, f 0 = .failure m → is_retryable_error m = false →
      run_qscanner f = ⟨.error m, 1, []⟩) := by
  refine ⟨?_, ?_, ?_, ?_⟩
  · intro f
    exact run_qscanner_from_attempts_le f (max_retries + 1) 0
  · intro f N out hN hfail hsucc
    have hN3 : N ≤ 3 := hN
    clear hN
    interval_cases N
    · simp [run_qscanner, run_qscanner_from, hsucc]
    · obtain ⟨m0, hm0, hr0⟩ := hfail 0 (by norm_num)
      simp [run_qscanner, run_qscanner_from, hm0, hr0, hsucc, max_retries, base_delay]
      decide
    · obtain ⟨m0, hm0, hr0⟩ := hfail 0 (by norm_num)
      obtain ⟨m1, hm1, hr1⟩ := hfail 1 (by norm_num)
      simp [run_qscanner, run_qscanner_from, hm0, hr0, hm1, hr1, hsucc, max_retries,
        base_delay, List.range_succ]
    · obtain ⟨m0, hm0, hr0⟩ := hfail 0 (by norm_num)
      obtain ⟨m1, hm1, hr1⟩ := hfail 1 (by norm_num)
      obtain ⟨m2, hm2, hr2⟩ := hfail 2 (by norm_num)
      simp [run_qscanner, run_qscanner_from, hm0, hr0, hm1, hr1, hm2, hr2, hsucc,
        max_retries, base_delay, List.range_succ]
  · intro f m₀ m₁ m₂ m₃ h0 h1 h2 h3 hr0 hr1 hr2
    simp [run_qscanner, run_qscanner_from, h0, h1, h2, h3, hr0, hr1, hr2,
      max_retries, base_delay]
  · intro f m h0 hr
    simp [run_qscanner, run_qscanner_from, h0, hr, max_retries]

/-- Witness for C9: a tool failing twice with a transient ("connection")
error and then succeeding is retried with sleeps 2 and 4 and returns the
successful output on the third attempt. -/
theorem executor_retry_backoff_witness :
    run_qscanner (fun i => if i < 2 then .failure "connection refused"
                           else .success "scan output") =
      ⟨.ok "scan output", 3, [2, 4]⟩ := by
  have h := executor_retry_backoff.2.1
    (fun i => if i < 2 then .failure "connection refused" else .success "scan output")
    2 "scan output" (by decide)
    (fun i hi => ⟨"connection refused", by interval_cases i <;> rfl, by decide⟩)
    rfl
  simpa using h

/-! ## Image reference parser (`image_parser.py`, `ImageParser.parse`) -/

/-- The dictionary returned by `ImageParser.parse` (image_parser.py
lines 75-82). -/
structure ImageRef where
  registry : String
  repository : String
  tag : String
  digest : Option String
  full_name : String
  original : String

theorem breakOnSub_eq_none_of_not_mem {c : Char} {sep l : List Char}
    (hc : c ∈ sep) (hl : c ∉ l) : breakOnSub sep l = none := by
  induction l with
  | nil =>
    have hsep : sep ≠ [] := by
      rintro rfl
      exact absurd hc (List.not_mem_nil c)
    simp [breakOnSub, hsep]
  | cons x xs ih =>
    simp only [breakOnSub]
    have hpre : sep.isPrefixOf (x :: xs) = false := by
      cases hp : sep.isPrefixOf (x :: xs) with
      | false => rfl
      | true => exact absurd ((List.isPrefixOf_iff_prefix.mp hp).subset hc) hl
    rw [hpre]
    simp only [Bool.false_eq_true, if_false]
    rw [ih (fun hmem => hl (List.mem_cons_of_mem x hmem))]

theorem splitOnSub_eq_single {sep l : List Char} {fuel : Nat}
    (h : breakOnSub sep l = none) : splitOnSub sep (fuel + 1) l = [l] := by
  simp [splitOnSub, h]

namespace ImageParser

/-- `image_name.split('@sha256:')` — the split whose two-variable unpacking
implements the digest handling of `parse` (image_parser.py lines 39-41).
Branching on the arity of this split is equivalent to the source's
`'@sha256:' in image_name` test followed by the unpack. -/
def digestSplit (s : String) : List (List Char) :=
  splitOnSub "@sha256:".data (s.data.length + 1) s.data

/-- Body of `ImageParser.parse` after the digest has been split off
(image_parser.py lines 43-82): tag extraction by `rsplit(':', 1)`,
registry/repository decomposition by `split('/')`, canonical-name
construction, modelled faithfully including Python truthiness of `digest`. -/
def continueParse (nameData : List Char) (digest : Option String) : ImageRef :=
  -- `if ':' in image_name: image_name, tag = image_name.rsplit(':', 1)`;
  -- rsplit-by-last-colon is the full colon split rejoined except its last part
  let tagParts := splitOnSub [':'] (nameData.length + 1) nameData
  let name2 := if 2 ≤ tagParts.length then joinWith ':' tagParts.dropLast else nameData
  let tag : String := if 2 ≤ tagParts.length then ⟨tagParts.getLastD []⟩ else "latest"
  -- `parts = image_name.split('/')`
  let parts := splitOnSub ['/'] (name2.length + 1) name2
  let rr : List Char × List Char :=
    match parts with
    | [p0] => ("docker.io".data, "library/".data ++ p0)
    | [p0, p1] =>
      if p0.contains '.' || p0.contains ':' then (p0, p1)
      else ("docker.io".data, p0 ++ '/' :: p1)
    | p0 :: rest => (p0, joinWith '/' rest)
    | [] => ("docker.io".data, "library/".data)  -- unreachable: split is never empty
  let registry : String := ⟨rr.1⟩
  let repository : String := ⟨rr.2⟩
  -- `full_name = f'{registry}/{repository}:{tag}'`, overridden to the
  -- `@digest` form when `digest` is truthy
  let full_name : String :=
    match digest with
    | some d =>
      if truthyStr d then registry ++ "/" ++ repository ++ "@" ++ d
      else registry ++ "/" ++ repository ++ ":" ++ tag
    | none => registry ++ "/" ++ repository ++ ":" ++ tag
  -- `'original': image_name if not digest else f'{image_name}@{digest}'`
  let original : String :=
    match digest with
    | some d => if truthyStr d then (⟨name2⟩ : String) ++ "@" ++ d else ⟨name2⟩
    | none => ⟨name2⟩
  { registry := registry, repository := repository, tag := tag, digest := digest,
    full_name := full_name, original := original }

/-- `ImageParser.parse`.  The two-part digest split succeeds; a split into
three or more parts makes the Python two-variable unpacking
`image_name, digest = image_name.split('@sha256:')` raise `ValueError`,
modelled as the `.error` branch.  (The `[]` alternative is unreachable:
`splitOnSub` never returns an empty list.) -/
def parse (s : String) : Except String ImageRef :=
  match digestSplit s with
  | [] => .ok (continueParse s.data none)
  | [_] => .ok (continueParse s.data none)
  | [a, b] => .ok (continueParse a (some ("sha256:" ++ (⟨b⟩ : String))))
  | _ => .error "ValueError: too many values to unpack (expected 2)"

end ImageParser

/-- C6 counterexample: on an input in which `@sha256:` occurs twice, the
split produces three parts and the two-variable unpacking raises
`ValueError`, so `parse` is not total as claimed. -/
theorem parse_raises_on_double_digest :
    ImageParser.parse "a@sha256:b@sha256:c" =
      .error "ValueError: too many values to unpack (expected 2)" := by
  rfl

/-- C6 amended: `parse` returns an `ImageRef` without raising for every
image string in which `@sha256:` occurs at most once (split arity ≤ 2);
with two or more occurrences the two-variable unpacking raises. -/
theorem parse_total_up_to_one_digest (s : String)
    (h : (ImageParser.digestSplit s).length ≤ 2) :
    ∃ r, ImageParser.parse s = .ok r := by
  cases hds : ImageParser.digestSplit s with
  | nil => exact ⟨_, by simp only [ImageParser.parse]; rw [hds]⟩
  | cons a t =>
    cases t with
    | nil => exact ⟨_, by simp only [ImageParser.parse]; rw [hds]⟩
    | cons b t2 =>
      cases t2 with
      | nil => exact ⟨_, by simp only [ImageParser.parse]; rw [hds]⟩
      | cons c t3 =>
        rw [hds] at h
        simp at h

/-- Witness for C6 amended: the bare name `nginx`. -/
theorem parse_total_up_to_one_digest_witness :
    (ImageParser.digestSplit "nginx").length ≤ 2 ∧
    ∃ r, ImageParser.parse "nginx" = .ok r :=
  ⟨by decide, parse_total_up_to_one_digest "nginx" (by decide)⟩

/-- C7: for every image string whose digest split has exactly two parts
(i.e. it contains `@sha256:<hex>` once), `parse` succeeds, the digest is
`sha256:<hex>`, and the canonical name is `{registry}/{repository}@{digest}`
— built with `@`, not `:`, so any parsed tag is dropped from it. -/
theorem digest_dropped_tag_canonical (s : String) (a b : List Char)
    (h : ImageParser.digestSplit s = [a, b]) :
    ∃ r, ImageParser.parse s = .ok r ∧
      r.digest = some ("sha256:" ++ (⟨b⟩ : String)) ∧
      r.full_name =
        r.registry ++ "/" ++ r.repository ++ "@" ++ ("sha256:" ++ (⟨b⟩ : String)) := by
  refine ⟨ImageParser.continueParse a (some ("sha256:" ++ (⟨b⟩ : String))), ?_, rfl, ?_⟩
  · simp only [ImageParser.parse]
    rw [h]
  · rfl

/-- Witness for C7: `nginx:1.25@sha256:abc123` — the tag `1.25` is parsed
but the canonical name uses `@sha256:abc123`. -/
theorem digest_dropped_tag_canonical_witness :
    ImageParser.digestSplit "nginx:1.25@sha256:abc123" =
      ["nginx:1.25".data, "abc123".data] ∧
    ∃ r, ImageParser.parse "nginx:1.25@sha256:abc123" = .ok r ∧
      r.digest = some "sha256:abc123" ∧
      r.full_name = r.registry ++ "/" ++ r.repository ++ "@" ++ "sha256:abc123" :=
  ⟨by decide,
   digest_dropped_tag_canonical "nginx:1.25@sha256:abc123"
     "nginx:1.25".data "abc123".data (by decide)⟩

theorem continueParse_bare (l : List Char) (h1 : '/' ∉ l) (h2 : ':' ∉ l) :
    ImageParser.continueParse l none =
      { registry := "docker.io", repository := "library/" ++ (⟨l⟩ : String),
        tag := "latest", digest := none,
        full_name := "docker.io/library/" ++ (⟨l⟩ : String) ++ ":latest",
        original := ⟨l⟩ } := by
  have hbc : splitOnSub [':'] (l.length + 1) l = [l] :=
    splitOnSub_eq_single
      (breakOnSub_eq_none_of_not_mem (List.mem_singleton.mpr rfl) h2)
  have hbs : splitOnSub ['/'] (l.length + 1) l = [l] :=
    splitOnSub_eq_single
      (breakOnSub_eq_none_of_not_mem (List.mem_singleton.mpr rfl) h1)
  simp only [ImageParser.continueParse, hbc]
  norm_num
  simp only [hbs]
  refine ⟨trivial, rfl, ?_⟩
  show String.mk ((("docker.io/library/".data ++ l) ++ ":".data) ++ "latest".data) =
    String.mk (("docker.io/library/".data ++ l) ++ ":latest".data)
  have hcat : (":".data ++ "latest".data : List Char) = ":latest".data := by decide
  exact congrArg String.mk (by rw [List.append_assoc, hcat])

/-- C8: a bare image name with no `/` and no `:` resolves to the default
registry `docker.io`, repository `library/{name}`, tag `latest`, and
canonical name `docker.io/library/{name}:latest`. -/
theorem bare_name_default_registry (s : String)
    (h1 : '/' ∉ s.data) (h2 : ':' ∉ s.data) :
    ImageParser.parse s = .ok
      { registry := "docker.io", repository := "library/" ++ s, tag := "latest",
        digest := none, full_name := "docker.io/library/" ++ s ++ ":latest",
        original := s } := by
  obtain ⟨l⟩ := s
  have hds : ImageParser.digestSplit ⟨l⟩ = [l] :=
    splitOnSub_eq_single (breakOnSub_eq_none_of_not_mem (c := ':') (by decide) h2)
  simp only [ImageParser.parse]
  rw [hds]
  exact congrArg Except.ok (continueParse_bare l h1 h2)

/-- Witness for C8: the bare name `nginx`. -/
theorem bare_name_default_registry_witness :
    '/' ∉ "nginx".data ∧ ':' ∉ "nginx".data ∧
    ImageParser.parse "nginx" = .ok
      { registry := "docker.io", repository := "library/nginx", tag := "latest",
        digest := none, full_name := "docker.io/library/nginx:latest",
        original := "nginx" } :=
  ⟨by decide, by decide,
   bare_name_default_registry "nginx" (by decide) (by decide)⟩

/-! ## JSON values (payloads produced by `json.loads`) -/

/-- JSON values, the payload shape handled by the output normalizers. -/
inductive JValue where
  | null
  | bool (b : Bool)
  | num (n : Int)
  | str (s : String)
  | arr (xs : List JValue)
  | obj (fields : List (String × JValue))

/-- Python `d.get(k)` / `d[k]` on a parsed JSON object.  (Parsed JSON objects
have unique keys, so first-match lookup is the dict lookup.)  The claims only
apply this to object payloads; Python would raise `AttributeError` on other
types. -/
def JValue.get (j : JValue) (k : String) : Option JValue :=
  match j with
  | .obj fs => fs.lookup k
  | _ => none

/-- Python `k in d` for a parsed JSON object.  (On non-dict values Python's
`in` is a different operation — substring test, list membership, or
`TypeError` — but the claims only exercise object payloads here.) -/
def JValue.hasKey (j : JValue) (k : String) : Bool :=
  (j.get k).isSome

/-- Python truthiness of a JSON value (`None`, `False`, `0`, `''`, `[]`,
and an empty dict are falsy). -/
def jTruthy : JValue → Bool
  | .null => false
  | .bool b => b
  | .num n => !(n == 0)
  | .str s => truthyStr s
  | .arr xs => !xs.isEmpty
  | .obj fs => !fs.isEmpty

/-- Python `a or b` (returns `a` when truthy, else `b`), used for the
`vuln.get('qid') or vuln.get('id')` field fallbacks. -/
def pyOr (a b : JValue) : JValue :=
  if jTruthy a then a else b

/-- Python `str(...)` of a JSON value, as applied by the severity
normalizers.  The composite cases return placeholders rather than Python's
`repr` text; no theorem below depends on them (any normalizer result is one
of the five fixed severities regardless). -/
def pyStr : JValue → String
  | .str s => s
  | .num n => toString n
  | .bool true => "True"
  | .bool false => "False"
  | .null => "None"
  | .arr _ => "<arr>"
  | .obj _ => "<obj>"

/-- Python iteration over a JSON list (`for vuln in vulnerabilities`).
The claims only exercise list payloads; on other types Python iteration
would raise or iterate characters/keys. -/
def jAsList : JValue → List JValue
  | .arr xs => xs
  | _ => []

/-! ## Severity normalization (C5) -/

namespace QScannerBinary

/-- `QScannerBinary._normalize_severity` (qualys_scanner_binary.py
lines 476-502): upper-case, exact match against the numeric map
`{'5','4','3','2','1'}`, then substring tokens CRIT / HIGH / MED / LOW /
INFO, defaulting to MEDIUM. -/
def normalize_severity (s : String) : String :=
  let severity := upperStr s
  if severity = "5" then "CRITICAL"
  else if severity = "4" then "HIGH"
  else if severity = "3" then "MEDIUM"
  else if severity = "2" then "LOW"
  else if severity = "1" then "INFORMATIONAL"
  else if strContains "CRIT" severity then "CRITICAL"
  else if strContains "HIGH" severity then "HIGH"
  else if strContains "MED" severity then "MEDIUM"
  else if strContains "LOW" severity then "LOW"
  else if strContains "INFO" severity then "INFORMATIONAL"
  else "MEDIUM"

end QScannerBinary

namespace QScanner

/-- `QScanner._normalize_severity` (qualys_scanner_qscanner.py
lines 319-355): like the binary variant but with the additional URGENT,
MODERATE and MINOR alternates. -/
def normalize_severity (s : String) : String :=
  let severity := upperStr s
  if severity = "5" then "CRITICAL"
  else if severity = "4" then "HIGH"
  else if severity = "3" then "MEDIUM"
  else if severity = "2" then "LOW"
  else if severity = "1" then "INFORMATIONAL"
  else if strContains "CRIT" severity then "CRITICAL"
  else if strContains "HIGH" severity || strContains "URGENT" severity then "HIGH"
  else if strContains "MED" severity || strContains "MODERATE" severity then "MEDIUM"
  else if strContains "LOW" severity || strContains "MINOR" severity then "LOW"
  else if strContains "INFO" severity then "INFORMATIONAL"
  else "MEDIUM"

end QScanner

/-- Transcription of the severity mapping exactly as the spec states it
(see C5): numeric strings "1".."5" to INFORMATIONAL..CRITICAL, then
case-insensitive substring tokens CRIT→CRITICAL, HIGH/URGENT→HIGH,
MED/MODERATE→MEDIUM, LOW/MINOR→LOW, INFO→INFORMATIONAL, default MEDIUM.
This is the spec-side definition for the refinement comparison, not a
translation of the code. -/
def claimed_severity_map (s : String) : String :=
  let u := upperStr s
  if u = "5" then "CRITICAL"
  else if u = "4" then "HIGH"
  else if u = "3" then "MEDIUM"
  else if u = "2" then "LOW"
  else if u = "1" then "INFORMATIONAL"
  else if strContains "CRIT" u then "CRITICAL"
  else if strContains "HIGH" u || strContains "URGENT" u then "HIGH"
  else if strContains "MED" u || strContains "MODERATE" u then "MEDIUM"
  else if strContains "LOW" u || strContains "MINOR" u then "LOW"
  else if strContains "INFO" u then "INFORMATIONAL"
  else "MEDIUM"

/-- C5 counterexample: the binary variant's `_normalize_severity` has no
URGENT token, so "URGENT" falls through every substring test and lands on
the MEDIUM default, not HIGH as the claim states. -/
theorem binary_normalize_urgent_is_medium :
    QScannerBinary.normalize_severity "URGENT" = "MEDIUM" ∧
    ("MEDIUM" : String) ≠ "HIGH" := by
  constructor
  · decide
  · decide

/-- C5 amended: the CLI variant (`qualys_scanner_qscanner.py`) implements
exactly the claimed mapping; the binary variant omits the URGENT, MODERATE
and MINOR alternates, so URGENT and MINOR fall through to the MEDIUM
default (MODERATE also yields MEDIUM, but via the default rather than the
MED token). -/
theorem severity_normalization_variants :
    (∀ s, QScanner.normalize_severity s = claimed_severity_map s) ∧
    QScannerBinary.normalize_severity "URGENT" = "MEDIUM" ∧
    QScannerBinary.normalize_severity "MINOR" = "MEDIUM" ∧
    QScannerBinary.normalize_severity "MODERATE" = "MEDIUM" := by
  refine ⟨fun s => rfl, ?_, ?_, ?_⟩ <;> decide

/-! ## Vulnerability summaries (C4) -/

/-- One entry of the `details` list built by `_parse_vulnerabilities`. -/
structure VulnDetail where
  qid : JValue
  cve : JValue
  severity : String
  title : JValue
  package : JValue
  version : JValue
  fixed_version : JValue

/-- The `vuln_summary` dictionary: per-severity counts, a total, and the
ordered detail records. -/
structure VulnSummary where
  CRITICAL : Nat
  HIGH : Nat
  MEDIUM : Nat
  LOW : Nat
  INFORMATIONAL : Nat
  total : Nat
  details : List VulnDetail

/-- The initial `vuln_summary` value (all counts zero, no details). -/
def emptyVulnSummary : VulnSummary := ⟨0, 0, 0, 0, 0, 0, []⟩

/-- Sum of the five per-severity counters. -/
def sumSeverities (vs : VulnSummary) : Nat :=
  vs.CRITICAL + vs.HIGH + vs.MEDIUM + vs.LOW + vs.INFORMATIONAL

/-- `if severity in vuln_summary: vuln_summary[severity] += 1`.  The
severity-name keys of the dict are exactly the five counters; the remaining
dict keys `'total'`/`'details'` are never produced by any of the severity
normalizations below (and incrementing them would crash Python), so values
outside the five leave the counters unchanged, as in the source. -/
def bumpSeverity (vs : VulnSummary) (sev : String) : VulnSummary :=
  if sev = "CRITICAL" then { vs with CRITICAL := vs.CRITICAL + 1 }
  else if sev = "HIGH" then { vs with HIGH := vs.HIGH + 1 }
  else if sev = "MEDIUM" then { vs with MEDIUM := vs.MEDIUM + 1 }
  else if sev = "LOW" then { vs with LOW := vs.LOW + 1 }
  else if sev = "INFORMATIONAL" then { vs with INFORMATIONAL := vs.INFORMATIONAL + 1 }
  else vs

/-- `vuln.get('package', {}).get(sub) if isinstance(vuln.get('package'), dict)
else vuln.get(alt)` — the two-shape package/version extraction shared by the
binary and CLI parsers. -/
def getPkgField (vuln : JValue) (sub alt : String) : JValue :=
  match vuln.get "package" with
  | some (JValue.obj fs) => ((JValue.obj fs).get sub).getD JValue.null
  | _ => (vuln.get alt).getD JValue.null

/-- The detail record appended per finding by the binary and CLI parsers
(identical code in qualys_scanner_binary.py lines 428-436 and
qualys_scanner_qscanner.py lines 260-268). -/
def mkVulnDetail (vuln : JValue) (severity : String) : VulnDetail :=
  { qid := pyOr ((vuln.get "qid").getD .null) ((vuln.get "id").getD .null)
    cve := pyOr ((vuln.get "cve").getD .null) ((vuln.get "cveId").getD .null)
    severity := severity
    title := pyOr ((vuln.get "title").getD .null) ((vuln.get "name").getD .null)
    package := getPkgField vuln "name" "packageName"
    version := getPkgField vuln "version" "packageVersion"
    fixed_version := pyOr ((vuln.get "fixedVersion").getD .null) ((vuln.get "fix").getD .null) }

/-- Loop body of `_parse_vulnerabilities` in the binary and CLI scanners,
parameterized by the severity normalizer (the only difference between the
two files' loops): normalize the severity, bump the matching counter, bump
the total, append the detail record. -/
def addVuln (normalize : String → String) (vs : VulnSummary) (vuln : JValue) : VulnSummary :=
  let severity := normalize (pyStr ((vuln.get "severity").getD (.str "UNKNOWN")))
  let vs1 := bumpSeverity vs severity
  let vs2 := { vs1 with total := vs1.total + 1 }
  { vs2 with details := vs2.details ++ [mkVulnDetail vuln severity] }

namespace QScannerBinary

/-- Finding-list extraction of `QScannerBinary._parse_vulnerabilities`
(qualys_scanner_binary.py lines 416-420): top-level key, then nested under
`results`. -/
def extract_vulnerabilities (sr : JValue) : List JValue :=
  if sr.hasKey "vulnerabilities" then jAsList ((sr.get "vulnerabilities").getD .null)
  else if ((sr.get "results").getD .null).hasKey "vulnerabilities" then
    jAsList ((((sr.get "results").getD .null).get "vulnerabilities").getD .null)
  else []

/-- `QScannerBinary._parse_vulnerabilities`. -/
def parse_vulnerabilities (sr : JValue) : VulnSummary :=
  (extract_vulnerabilities sr).foldl (addVuln normalize_severity) emptyVulnSummary

end QScannerBinary

namespace QScanner

/-- Finding-list extraction of `QScanner._parse_vulnerabilities`
(qualys_scanner_qscanner.py lines 243-248): top-level key, nested under
`results`, then nested under `imageDetails`. -/
def extract_vulnerabilities (sr : JValue) : List JValue :=
  if sr.hasKey "vulnerabilities" then jAsList ((sr.get "vulnerabilities").getD .null)
  else if ((sr.get "results").getD .null).hasKey "vulnerabilities" then
    jAsList ((((sr.get "results").getD .null).get "vulnerabilities").getD .null)
  else if sr.hasKey "imageDetails" then
    jAsList ((((sr.get "imageDetails").getD (.obj [])).get "vulnerabilities").getD (.arr []))
  else []

/-- `QScanner._parse_vulnerabilities`. -/
def parse_vulnerabilities (sr : JValue) : VulnSummary :=
  (extract_vulnerabilities sr).foldl (addVuln normalize_severity) emptyVulnSummary

end QScanner

namespace QualysScanner

/-- Detail record of `QualysScanner._parse_vulnerabilities`
(qualys_scanner.py lines 231-239): plain `get`s, package data under the
nested `software` object. -/
def mkVulnDetailApi (vuln : JValue) (severity : String) : VulnDetail :=
  { qid := (vuln.get "qid").getD .null
    cve := (vuln.get "cve").getD .null
    severity := severity
    title := (vuln.get "title").getD .null
    package := (((vuln.get "software").getD (.obj [])).get "name").getD .null
    version := (((vuln.get "software").getD (.obj [])).get "version").getD .null
    fixed_version := (((vuln.get "software").getD (.obj [])).get "fixedVersion").getD .null }

/-- Loop body of `QualysScanner._parse_vulnerabilities` (qualys_scanner.py
lines 223-239): `severity = vuln.get('severity', 'UNKNOWN').upper()` — only
upper-cased, NOT normalized.  `.upper()` exists only on strings, so a
non-string severity raises `AttributeError`, modelled by `none`. -/
def add_vuln (vs : VulnSummary) (vuln : JValue) : Option VulnSummary :=
  match (vuln.get "severity").getD (.str "UNKNOWN") with
  | .str s =>
    let severity := upperStr s
    let vs1 := bumpSeverity vs severity
    let vs2 := { vs1 with total := vs1.total + 1 }
    some { vs2 with details := vs2.details ++ [mkVulnDetailApi vuln severity] }
  | _ => none

/-- `QualysScanner._parse_vulnerabilities`: `scan_results.get(
'vulnerabilities', [])` then the uppercase-only counting loop. -/
def parse_vulnerabilities (sr : JValue) : Option VulnSummary :=
  (jAsList ((sr.get "vulnerabilities").getD (.arr []))).foldlM add_vuln emptyVulnSummary

end QualysScanner

/-- The five severity-bucket keys. -/
def fixed_severities : List String :=
  ["CRITICAL", "HIGH", "MEDIUM", "LOW", "INFORMATIONAL"]

theorem binary_normalize_mem_fixed (s : String) :
    QScannerBinary.normalize_severity s ∈ fixed_severities := by
  simp only [QScannerBinary.normalize_severity, fixed_severities]
  split_ifs <;> simp

theorem qscanner_normalize_mem_fixed (s : String) :
    QScanner.normalize_severity s ∈ fixed_severities := by
  simp only [QScanner.normalize_severity, fixed_severities]
  split_ifs <;> simp

theorem bumpSeverity_counts (vs : VulnSummary) (sev : String)
    (h : sev ∈ fixed_severities) :
    sumSeverities (bumpSeverity vs sev) = sumSeverities vs + 1 ∧
    (bumpSeverity vs sev).total = vs.total := by
  simp only [fixed_severities, List.mem_cons, List.not_mem_nil, or_false] at h
  rcases h with h | h | h | h | h <;> subst h <;>
    simp [bumpSeverity, sumSeverities] <;> omega

theorem addVuln_counts (normalize : String → String)
    (hmem : ∀ s, normalize s ∈ fixed_severities) (vs : VulnSummary) (vuln : JValue) :
    sumSeverities (addVuln normalize vs vuln) = sumSeverities vs + 1 ∧
    (addVuln normalize vs vuln).total = vs.total + 1 := by
  have hb := bumpSeverity_counts vs
    (normalize (pyStr ((vuln.get "severity").getD (.str "UNKNOWN")))) (hmem _)
  refine ⟨hb.1, ?_⟩
  show (bumpSeverity vs
    (normalize (pyStr ((vuln.get "severity").getD (.str "UNKNOWN"))))).total + 1 =
    vs.total + 1
  rw [hb.2]

theorem foldl_addVuln_sum_eq_total (normalize : String → String)
    (hmem : ∀ s, normalize s ∈ fixed_severities) :
    ∀ (vulns : List JValue) (vs : VulnSummary), sumSeverities vs = vs.total →
      sumSeverities (vulns.foldl (addVuln normalize) vs) =
        (vulns.foldl (addVuln normalize) vs).total := by
  intro vulns
  induction vulns with
  | nil => intro vs h; simpa using h
  | cons v rest ih =>
    intro vs h
    have hc := addVuln_counts normalize hmem vs v
    simp only [List.foldl_cons]
    exact ih (addVuln normalize vs v) (by rw [hc.1, hc.2, h])

/-- C4 amended: in the two parsers that normalize severities into the fixed
set (binary and CLI scanners), the sum of the per-severity counts equals
`total` for every raw scan payload.  (The API-client parser in
qualys_scanner.py breaks this — see the counterexample.) -/
theorem vuln_severity_sum_eq_total :
    (∀ sr, sumSeverities (QScannerBinary.parse_vulnerabilities sr) =
      (QScannerBinary.parse_vulnerabilities sr).total) ∧
    (∀ sr, sumSeverities (QScanner.parse_vulnerabilities sr) =
      (QScanner.parse_vulnerabilities sr).total) := by
  constructor
  · intro sr
    exact foldl_addVuln_sum_eq_total _ binary_normalize_mem_fixed _ emptyVulnSummary rfl
  · intro sr
    exact foldl_addVuln_sum_eq_total _ qscanner_normalize_mem_fixed _ emptyVulnSummary rfl

/-- C4 counterexample: the API-client parser only upper-cases severities,
so the finding `{"severity": "5"}` (the spec's own end-to-end example shape)
increments `total` but no severity bucket: the summary has severity-sum 0
and total 1. -/
theorem api_vuln_sum_ne_total :
    (QualysScanner.parse_vulnerabilities
        (.obj [("vulnerabilities", .arr [.obj [("severity", .str "5")]])])).map
      (fun vs => (sumSeverities vs, vs.total)) = some (0, 1) ∧
    (0 : Nat) ≠ 1 := by
  constructor
  · rfl
  · decide

/-! ## Compliance summaries and `scan_image` (C2) -/

/-- One entry of the `checks` list built by `_parse_compliance`. -/
structure ComplianceCheck where
  id : JValue
  title : JValue
  status : String
  description : JValue

/-- The `compliance` dictionary: pass/fail counters, a total, and the
ordered check records. -/
structure ComplianceSummary where
  passed : Nat
  failed : Nat
  total : Nat
  checks : List ComplianceCheck

/-- The initial `compliance` value. -/
def emptyComplianceSummary : ComplianceSummary := ⟨0, 0, 0, []⟩

/-- Loop body of `_parse_compliance` in the binary and CLI scanners
(identical code, qualys_scanner_binary.py lines 458-472): upper-case the
status, always bump `total`, bump `passed` on PASS/PASSED and `failed` on
FAIL/FAILED, append the check record. -/
def addCheck (cs : ComplianceSummary) (check : JValue) : ComplianceSummary :=
  let status := upperStr (pyStr ((check.get "status").getD (.str "")))
  let cs1 := { cs with total := cs.total + 1 }
  let cs2 :=
    if status = "PASS" ∨ status = "PASSED" then { cs1 with passed := cs1.passed + 1 }
    else if status = "FAIL" ∨ status = "FAILED" then { cs1 with failed := cs1.failed + 1 }
    else cs1
  { cs2 with checks := cs2.checks ++
      [{ id := pyOr ((check.get "id").getD .null) ((check.get "checkId").getD .null)
         title := pyOr ((check.get "title").getD .null) ((check.get "name").getD .null)
         status := status
         description := (check.get "description").getD .null }] }

namespace QScannerBinary

/-- Check-list extraction of `QScannerBinary._parse_compliance`
(qualys_scanner_binary.py lines 452-456). -/
def extract_compliance (sr : JValue) : List JValue :=
  if sr.hasKey "compliance" then jAsList ((sr.get "compliance").getD .null)
  else if ((sr.get "results").getD .null).hasKey "compliance" then
    jAsList ((((sr.get "results").getD .null).get "compliance").getD .null)
  else []

/-- `QScannerBinary._parse_compliance`. -/
def parse_compliance (sr : JValue) : ComplianceSummary :=
  (extract_compliance sr).foldl addCheck emptyComplianceSummary

/-- `QScannerBinary._parse_qscanner_output` (qualys_scanner_binary.py
lines 387-401).  `json.loads` is modelled by the `parsed` oracle: `.ok` is
the parsed payload, `.error` the `JSONDecodeError` message; on a decode
error the substitute PARSE_ERROR payload is returned instead of raising. -/
def parse_qscanner_output (output : String) (parsed : Except String JValue) : JValue :=
  match parsed with
  | .ok data => data
  | .error e =>
    .obj [("status", .str "PARSE_ERROR"), ("raw_output", .str output), ("error", .str e)]

/-- The `metadata` sub-dictionary of the `scan_image` result. -/
structure ScanMetadata where
  registry : String
  repository : String
  tag : String
  digest : Option String
  scan_timestamp : String
  scanner : String
  raw_output : JValue

/-- The dictionary returned by `QScannerBinary.scan_image`
(qualys_scanner_binary.py lines 213-228). -/
structure ScanOutcome where
  scan_id : JValue
  status : String
  image : String
  vulnerabilities : VulnSummary
  compliance : ComplianceSummary
  metadata : ScanMetadata

/-- `QScannerBinary.scan_image` after `_run_qscanner` has returned
`run_output`: parse the output (with `json.loads` modelled by the `parsed`
oracle) and assemble the outcome dictionary.  `now_id` and `now_iso` are the
`datetime.utcnow()` strftime/isoformat strings. -/
def scan_image (registry repository tag : String) (digest : Option String)
    (run_output : String) (parsed : Except String JValue)
    (now_id now_iso : String) : ScanOutcome :=
  let image_id :=
    match digest with
    | some d =>
      if truthyStr d then registry ++ "/" ++ repository ++ "@" ++ d
      else registry ++ "/" ++ repository ++ ":" ++ tag
    | none => registry ++ "/" ++ repository ++ ":" ++ tag
  let scan_results := parse_qscanner_output run_output parsed
  { scan_id := (scan_results.get "scanId").getD (.str now_id)
    status := "COMPLETED"
    image := image_id
    vulnerabilities := parse_vulnerabilities scan_results
    compliance := parse_compliance scan_results
    metadata := { registry := registry, repository := repository, tag := tag,
                  digest := digest, scan_timestamp := now_iso,
                  scanner := "qscanner-binary", raw_output := scan_results } }

end QScannerBinary

/-- C2 counterexample: when the tool output is not JSON, `scan_image`
returns an outcome whose top-level `status` is `"COMPLETED"`, not
`"PARSE_ERROR"` as the claim states. -/
theorem scan_image_parse_error_status_completed :
    (QScannerBinary.scan_image "myregistry.azurecr.io" "app" "v1" none
        "this is not json" (.error "Expecting value: line 1 column 1 (char 0)")
        "20240101000000" "2024-01-01T00:00:00").status = "COMPLETED" ∧
    ("COMPLETED" : String) ≠ "PARSE_ERROR" := by
  exact ⟨rfl, by decide⟩

/-- C2 amended: when the raw tool output cannot be parsed as JSON,
`scan_image` returns (does not raise) an outcome whose top-level status is
`"COMPLETED"`; the `"PARSE_ERROR"` status sits on the normalizer's
substitute payload stored in `metadata.raw_output`; the vulnerability and
compliance summaries have all counts zero; and the raw unparsed text is
retained in the metadata (under `raw_output` of the substitute payload). -/
theorem scan_image_parse_error_outcome (registry repository tag : String)
    (digest : Option String) (output err now_id now_iso : String) :
    (QScannerBinary.scan_image registry repository tag digest output
        (.error err) now_id now_iso).status = "COMPLETED" ∧
    (QScannerBinary.scan_image registry repository tag digest output
        (.error err) now_id now_iso).vulnerabilities = emptyVulnSummary ∧
    (QScannerBinary.scan_image registry repository tag digest output
        (.error err) now_id now_iso).compliance = emptyComplianceSummary ∧
    (QScannerBinary.scan_image registry repository tag digest output
        (.error err) now_id now_iso).metadata.raw_output =
      .obj [("status", .str "PARSE_ERROR"), ("raw_output", .str output),
            ("error", .str err)] ∧
    (QScannerBinary.scan_image registry repository tag digest output
        (.error err) now_id now_iso).metadata.raw_output.get "raw_output" =
      some (.str output) := by
  exact ⟨rfl, rfl, rfl, rfl, rfl⟩

/-! ## Command-line construction (C3) -/

namespace QScannerBinary

/-- The `cmd` list built by `QScannerBinary._execute_qscanner`
(qualys_scanner_binary.py lines 300-315): fixed flags — including
`--access-token <token>` — then the `image` subcommand, the image id, and
the `--tag k=v` pairs for custom tags. -/
def execute_qscanner_cmd (qscanner_path pod access_token image_id : String)
    (custom_tags : List (String × String)) : List String :=
  [qscanner_path,
   "--pod", pod,
   "--scan-types", "os,sca,secret",
   "--format", "json",
   "--access-token", access_token,
   "--save",
   "--skip-verify-tls",
   "image",
   image_id] ++
  (custom_tags.map (fun kv => ["--tag", kv.1 ++ "=" ++ kv.2])).flatten

end QScannerBinary

namespace QScanner

/-- `QScanner._build_scan_command` (qualys_scanner_qscanner.py
lines 97-137): base flags, then — when both `self.username` and
`self.password` are truthy — `--username <u> --password <p>`, then custom
tags, the image/scan_time correlation tags, and the severity threshold. -/
def build_scan_command (qscanner_path image_id : String)
    (username password : Option String) (custom_tags : List (String × String))
    (now severity_threshold : String) : List String :=
  [qscanner_path,
   "--image", image_id,
   "--output-format", "json",
   "--output-file", "-"] ++
  (match username, password with
   | some u, some p =>
     if truthyStr u && truthyStr p then ["--username", u, "--password", p] else []
   | _, _ => []) ++
  (custom_tags.map (fun kv => ["--tag", kv.1 ++ "=" ++ kv.2])).flatten ++
  ["--tag", "image=" ++ image_id] ++
  ["--tag", "scan_time=" ++ now] ++
  ["--severity-threshold", severity_threshold]

end QScanner

/-- C3 counterexample: the access-token value does appear among the
command-line arguments built by the binary executor. -/
theorem access_token_on_command_line :
    "SECRET-TOKEN" ∈ QScannerBinary.execute_qscanner_cmd
      "/home/qscanner" "US2" "SECRET-TOKEN" "myacr.azurecr.io/app:latest" [] := by
  decide

/-- C3 amended: credentials DO appear among the command-line arguments —
the binary executor always passes the Qualys access token via
`--access-token`, and the CLI executor passes username and password via
`--username`/`--password` whenever both are set and non-empty (it also
copies them into the child environment, but not instead of argv). -/
theorem credentials_on_command_line :
    (∀ path pod token image tags,
      token ∈ QScannerBinary.execute_qscanner_cmd path pod token image tags) ∧
    (∀ path image u p tags now th, truthyStr u = true → truthyStr p = true →
      u ∈ QScanner.build_scan_command path image (some u) (some p) tags now th ∧
      p ∈ QScanner.build_scan_command path image (some u) (some p) tags now th) := by
  constructor
  · intro path pod token image tags
    simp [QScannerBinary.execute_qscanner_cmd]
  · intro path image u p tags now th hu hp
    constructor <;> simp [QScanner.build_scan_command, hu, hp]

/-- Witness for C3 amended: concrete commands for both executors. -/
theorem credentials_on_command_line_witness :
    "TOK" ∈ QScannerBinary.execute_qscanner_cmd "qscanner" "US2" "TOK" "img" [] ∧
    "user1" ∈ QScanner.build_scan_command "qscanner" "img" (some "user1")
      (some "pw1") [] "2024-01-01T00:00:00" "MEDIUM" ∧
    "pw1" ∈ QScanner.build_scan_command "qscanner" "img" (some "user1")
      (some "pw1") [] "2024-01-01T00:00:00" "MEDIUM" :=
  ⟨credentials_on_command_line.1 "qscanner" "US2" "TOK" "img" [],
   (credentials_on_command_line.2 "qscanner" "img" "user1" "pw1" []
     "2024-01-01T00:00:00" "MEDIUM" (by decide) (by decide)).1,
   (credentials_on_command_line.2 "qscanner" "img" "user1" "pw1" []
     "2024-01-01T00:00:00" "MEDIUM" (by decide) (by decide)).2⟩

/-! ## Scan cache recency check (C10, `storage_handler.py`) -/

/-- `scan_timestamp_str.replace('Z', '+00:00')` (storage_handler.py
line 179). -/
def replaceZ (s : String) : String :=
  ⟨(s.data.map (fun c => if c = 'Z' then "+00:00".data else [c])).flatten⟩

/-- The `for entity in entities` filter loop of `is_recently_scanned`
(storage_handler.py lines 175-187): falsy (missing or empty) timestamps are
skipped; `datetime.fromisoformat` is modelled by the `parse_ts` oracle
(`none` = `ValueError`/`AttributeError`, caught and skipped); a parsed
timestamp at or after the cutoff returns true; otherwise the loop falls
through to false. -/
def recent_scan_loop (parse_ts : String → Option Int) (cutoff : Int) :
    List (Option String) → Bool
  | [] => false
  | none :: rest => recent_scan_loop parse_ts cutoff rest
  | some s :: rest =>
    if truthyStr s then
      match parse_ts (replaceZ s) with
      | none => recent_scan_loop parse_ts cutoff rest
      | some ts => if cutoff ≤ ts then true else recent_scan_loop parse_ts cutoff rest
    else recent_scan_loop parse_ts cutoff rest

/-- `StorageHandler.is_recently_scanned` (storage_handler.py lines 151-191):
the table query is modelled by `query` (each entity reduced to its
`ScanTimestamp` column; `.error` = any exception from the query/iteration),
and the whole body is wrapped in `try/except` returning false on failure. -/
def is_recently_scanned (parse_ts : String → Option Int) (cutoff : Int)
    (query : Except String (List (Option String))) : Bool :=
  match query with
  | .error _ => false
  | .ok entities => recent_scan_loop parse_ts cutoff entities

/-- C10: `is_recently_scanned` is total (it returns a boolean for every
oracle outcome instead of raising): any query-level failure yields `false`
(not recently scanned), and a stored record whose timestamp is missing or
cannot be parsed is skipped — it neither raises nor counts as recent, the
result being exactly the result on the remaining records. -/
theorem recently_scanned_tolerates_failures :
    (∀ parse_ts cutoff err,
      is_recently_scanned parse_ts cutoff (.error err) = false) ∧
    (∀ parse_ts cutoff rest,
      is_recently_scanned parse_ts cutoff (.ok (none :: rest)) =
        is_recently_scanned parse_ts cutoff (.ok rest)) ∧
    (∀ (parse_ts : String → Option Int) cutoff s rest,
      parse_ts (replaceZ s) = none →
      is_recently_scanned parse_ts cutoff (.ok (some s :: rest)) =
        is_recently_scanned parse_ts cutoff (.ok rest)) := by
  refine ⟨fun _ _ _ => rfl, fun _ _ _ => rfl, ?_⟩
  intro parse_ts cutoff s rest h
  by_cases ht : truthyStr s = true
  · simp [is_recently_scanned, recent_scan_loop, ht, h]
  · simp [is_recently_scanned, recent_scan_loop, ht]

/-- Witness for C10: a malformed stored timestamp ("not-a-date", with a
parser that rejects everything) is skipped and a failing query returns
false. -/
theorem recently_scanned_tolerates_failures_witness :
    is_recently_scanned (fun _ => none) 0 (.ok [some "not-a-date"]) =
      is_recently_scanned (fun _ => none) 0 (.ok []) ∧
    is_recently_scanned (fun _ => none) 0 (.error "ServiceRequestError") = false :=
  ⟨recently_scanned_tolerates_failures.2.2 (fun _ => none) 0 "not-a-date" [] rfl,
   recently_scanned_tolerates_failures.1 (fun _ => none) 0 "ServiceRequestError"⟩

end QualysAci
